import Mathlib

/-!
Verification development for the Polar webhook reconciliation core
(server/routes/webhooks.ts together with the Mongoose schemas in
server/models).  The TypeScript handlers are shallowly embedded as pure
Lean functions over an explicit store state.  Conventions used in the
embedding:

* JavaScript optional fields become Option values; the JS truthiness
  tests that the handlers perform (x together with x being nonempty or
  nonzero) are modelled by the truthyS and truthyN helpers, and the JS
  a-or-else-b idiom (written a pipe-pipe b in the source) by jsOrS and
  jsOrN.
* Mongoose findOne is modelled as first match over the stored list; a
  filter whose value is undefined is dropped by Mongoose, so a findOne
  with an undefined key matches the first stored document.
* The email path of the User schema carries lowercase and trim setters
  and Mongoose applies setters both on assignment and on query values,
  so every write to the email field and every email query value goes
  through normEmail.
* Timestamps (new Date()) are modelled by an abstract tick, a Nat
  passed to the handlers.
* The outcomes of the external collaborator calls (Polar invoice
  generation, Polar invoice retrieval, the two email sends) are an
  explicit Collab environment, since the handlers branch on, absorb or
  propagate their success or failure.
-/

/-- JS truthiness of an optional string: undefined and the empty string
are falsy. -/
def truthyS (o : Option String) : Bool :=
  match o with
  | none => false
  | some s => s ≠ ""

/-- JS truthiness of an optional number: undefined and 0 are falsy. -/
def truthyN (o : Option Int) : Bool :=
  match o with
  | none => false
  | some n => n ≠ 0

/-- The JS idiom a pipe-pipe b on optional strings. -/
def jsOrS (a b : Option String) : Option String :=
  if truthyS a then a else b

/-- The JS idiom a pipe-pipe b on optional numbers. -/
def jsOrN (a b : Option Int) : Option Int :=
  if truthyN a then a else b

/-- The JS idiom x pipe-pipe undefined: keeps x only when truthy. -/
def toTruthyS (a : Option String) : Option String :=
  if truthyS a then a else none

/-- The JS idiom x pipe-pipe 0 on numbers. -/
def toTruthyN0 (a : Option Int) : Int :=
  if truthyN a then a.getD 0 else 0

/-- The trim setter on the name path of the User schema (Mongoose
runs field setters on every assignment).  Implemented over the
character list so it computes by structural recursion. -/
def trimName (s : String) : String :=
  String.mk
    (((s.data.dropWhile Char.isWhitespace).reverse.dropWhile
        Char.isWhitespace).reverse)

/-- The lowercase and trim setters on the email path of the User
schema (Mongoose applies them on assignment and on query values). -/
def normEmail (s : String) : String :=
  String.mk ((trimName s).data.map Char.toLower)

/-- Payment lifecycle status (enum of the Payment schema). -/
inductive PStatus where
  | pending
  | completed
  | failed
  | refunded
deriving DecidableEq

/-- Subscription tier (enum of the User and Product schemas). -/
inductive Tier where
  | free
  | pro
  | enterprise
deriving DecidableEq

/-- The nested discount object carried by checkout events
(data.discount with its code, id, type and name fields). -/
structure Discount where
  code : Option String := none
  did : Option String := none
  dtype : Option String := none
  dname : Option String := none
deriving DecidableEq

/-- The open metadata bag of a Payment record.  The handlers only ever
write these fixed keys, so the bag is modelled as a record of optional
fields, every field absent by default. -/
structure Meta where
  order_id : Option String := none
  subscription_id : Option String := none
  external_customer_id : Option String := none
  checkout_url : Option String := none
  expires_at : Option String := none
  discount_name : Option String := none
  discount_full_data : Option Discount := none
  net_amount : Option Int := none
  checkout_status : Option String := none
  updated_at : Option Nat := none
  order_created_at : Option Nat := none
  paid_at : Option Nat := none
  paid : Bool := false
  refund_id : Option String := none
  refund_amount : Option Int := none
  refund_reason : Option String := none
  refunded_at : Option Nat := none
  refund_comment : Option String := none
  subscription_status : Option String := none
  canceled_at : Option Nat := none
  status_field : Option String := none
  current_period_end : Option String := none
deriving DecidableEq

/-- A Payment document (server/models/Payment.ts plus the discount and
amount fields the webhook handlers write).  pid models the Mongo _id,
assigned from a counter on insertion.  amount is kept optional because
the handlers may assign an absent event field to it. -/
structure Payment where
  pid : Nat := 0
  checkoutId : String
  customerId : Option String := none
  customerEmail : Option String := none
  productId : Option String := none
  productName : Option String := none
  amount : Option Int := none
  currency : String := "USD"
  status : PStatus := .pending
  eventType : String
  appName : Option String := none
  featureDate : Option String := none
  discountCode : Option String := none
  discountId : Option String := none
  discountAmount : Int := 0
  discountType : Option String := none
  originalAmount : Option Int := none
  metadata : Meta := {}
deriving DecidableEq

/-- A User document (server/models/User.ts).  The email field is
stored already normalized, since its schema setters run on every
assignment. -/
structure User where
  email : String
  name : Option String := none
  polarCustomerId : Option String := none
  subscriptionStatus : Tier := .free
  subscriptionId : Option String := none
  subscriptionEndsAt : Option String := none
  payments : List Nat := []
deriving DecidableEq

/-- A Product document (server/models/Product.ts), read-only reference
data mapping a Polar product id to a tier. -/
structure Product where
  polarProductId : String
  pname : String := ""
  tier : Tier := .free
deriving DecidableEq

/-- The backing store: the three Mongo collections in insertion order,
plus the counter from which Payment ids are assigned. -/
structure St where
  users : List User := []
  payments : List Payment := []
  products : List Product := []
  nextPid : Nat := 0
deriving DecidableEq

/-- The loosely typed event payload (event.data).  One flat record of
optional fields mirrors the defensive optional-chaining access of the
handlers; customer_externalId and customer_email stand for the nested
data.customer object, metadata_app_name and metadata_feature_date for
the nested data.metadata object. -/
structure EvData where
  id : String
  checkoutId : Option String := none
  orderId : Option String := none
  customerId : Option String := none
  customerEmail : Option String := none
  customerName : Option String := none
  externalCustomerId : Option String := none
  customer_externalId : Option String := none
  customer_email : Option String := none
  externalId : Option String := none
  email : Option String := none
  nameField : Option String := none
  productId : Option String := none
  productName : Option String := none
  amount : Option Int := none
  netAmount : Option Int := none
  totalAmount : Option Int := none
  currency : Option String := none
  status : Option String := none
  discount : Option Discount := none
  discountId : Option String := none
  discountAmount : Option Int := none
  metadata_app_name : Option String := none
  metadata_feature_date : Option String := none
  url : Option String := none
  expiresAt : Option String := none
  currentPeriodEnd : Option String := none
  reason : Option String := none
  comment : Option String := none
  revokeBenefits : Bool := false
  isInvoiceGenerated : Bool := false
deriving DecidableEq

/-- A verified webhook event: its type string and its data payload. -/
structure Ev where
  etype : String
  data : EvData
deriving DecidableEq

/-- Outcome of the Polar generate-invoice collaborator call: scheduled
(202), already-exists (statusCode 409), or any other failure. -/
inductive GenInvoiceOutcome where
  | scheduled
  | conflict
  | failure
deriving DecidableEq

/-- Outcomes of the external collaborator calls made while processing
one event.  fetchInvoice is some url on success and none when the call
rejects; the two email flags tell whether the email promise resolves. -/
structure Collab where
  genInvoice : GenInvoiceOutcome := .scheduled
  fetchInvoice : Option String := none
  invoiceEmailOk : Bool := true
  refundEmailOk : Bool := true
deriving DecidableEq

/-- First element satisfying a predicate, together with its index:
the model of Mongoose findOne over a collection. -/
def findFirst? (p : α → Bool) : List α → Option (Nat × α)
  | [] => none
  | x :: xs =>
    if p x then some (0, x)
    else (findFirst? p xs).map (fun ia => (ia.1 + 1, ia.2))

/-- Whether a stored user matches an email filter value.  An undefined
filter value is dropped by Mongoose, so it matches every document; a
present value goes through the email setters before comparison. -/
def emailMatches (q : Option String) (u : User) : Bool :=
  match q with
  | none => true
  | some e => u.email == normEmail e

/-- User.findOne with an email filter. -/
def findUserByEmail (s : St) (q : Option String) : Option (Nat × User) :=
  findFirst? (emailMatches q) s.users

/-- User.findOne with a polarCustomerId filter (the event id is always
present, so the filter value is never undefined). -/
def findUserByPolarId (s : St) (q : String) : Option (Nat × User) :=
  findFirst? (fun u => u.polarCustomerId == some q) s.users

/-- User.findOne with a subscriptionId filter. -/
def findUserBySubId (s : St) (q : String) : Option (Nat × User) :=
  findFirst? (fun u => u.subscriptionId == some q) s.users

/-- Payment.findOne with a checkoutId filter; an undefined filter value
is dropped, matching the first stored payment. -/
def findPaymentByCheckoutId (s : St) (q : Option String) : Option (Nat × Payment) :=
  findFirst? (fun p => match q with
    | none => true
    | some c => p.checkoutId == c) s.payments

/-- Payment.findOne with a metadata.order_id filter; an undefined
filter value is dropped, matching the first stored payment. -/
def findPaymentByOrderId (s : St) (q : Option String) : Option (Nat × Payment) :=
  findFirst? (fun p => match q with
    | none => true
    | some o => p.metadata.order_id == some o) s.payments

/-- Payment.findOne with a metadata.subscription_id filter. -/
def findPaymentBySubId (s : St) (q : String) : Option (Nat × Payment) :=
  findFirst? (fun p => p.metadata.subscription_id == some q) s.payments

/-- Product.findOne with a polarProductId filter; an undefined filter
value is dropped, matching the first stored product. -/
def findProduct (s : St) (q : Option String) : Option (Nat × Product) :=
  findFirst? (fun pr => match q with
    | none => true
    | some c => pr.polarProductId == c) s.products

/-- The Payment document built by handleCheckoutCreated.  The amount
field is data.netAmount pipe-pipe data.amount pipe-pipe 0, exactly as
in the source (so a netAmount of 0 is falsy and falls through). -/
def checkoutPayment (d : EvData) (ident : Option String) (pid : Nat) : Payment :=
  { pid := pid
    checkoutId := d.id
    customerId := d.customerId
    customerEmail := jsOrS d.customerEmail ident
    productId := d.productId
    productName := d.productName
    amount := some ((jsOrN d.netAmount d.amount).getD 0)
    currency := if truthyS d.currency then d.currency.getD "" else "USD"
    status := .pending
    eventType := "checkout.created"
    appName := d.metadata_app_name
    featureDate := toTruthyS d.metadata_feature_date
    discountCode := toTruthyS (d.discount.bind Discount.code)
    discountId := toTruthyS (jsOrS d.discountId (d.discount.bind Discount.did))
    discountAmount := toTruthyN0 d.discountAmount
    discountType := toTruthyS (d.discount.bind Discount.dtype)
    originalAmount := d.amount
    metadata :=
      { checkout_url := d.url
        expires_at := d.expiresAt
        external_customer_id := d.externalCustomerId
        discount_name := d.discount.bind Discount.dname
        discount_full_data := d.discount
        net_amount := d.netAmount } }

/-- handleCheckoutCreated: find or create the user keyed by
externalCustomerId pipe-pipe customerEmail, record a new pending
Payment, and link the payment id into the owned list of the user. -/
def handleCheckoutCreated (d : EvData) (s : St) : St :=
  let ident := jsOrS d.externalCustomerId d.customerEmail
  let step1 : St × Option (Nat × User) :=
    match findUserByEmail s ident with
    | none =>
      if truthyS ident then
        let u0 : User :=
          { email := normEmail (ident.getD "")
            name := d.customerName.map trimName
            polarCustomerId := d.customerId }
        ({ s with users := s.users ++ [u0] }, some (s.users.length, u0))
      else (s, none)
    | some (i, u) =>
      if truthyS d.customerId then
        let u1 := { u with polarCustomerId := d.customerId }
        ({ s with users := s.users.set i u1 }, some (i, u1))
      else (s, some (i, u))
  let s1 := step1.1
  let pay := checkoutPayment d ident s1.nextPid
  let s2 := { s1 with payments := s1.payments ++ [pay], nextPid := s1.nextPid + 1 }
  match step1.2 with
  | none => s2
  | some (i, u) =>
    { s2 with users := s2.users.set i { u with payments := u.payments ++ [pay.pid] } }

/-- handleCheckoutUpdated: flip to completed exactly when the provider
status is the literal string confirmed, refresh contact fields, merge
newly present discount fields, and record the checkout status in the
metadata bag. -/
def handleCheckoutUpdated (d : EvData) (now : Nat) (s : St) : St :=
  match findPaymentByCheckoutId s (some d.id) with
  | none => s
  | some (i, p) =>
    let p1 := { p with
      status := if d.status == some "confirmed" then .completed else p.status
      customerEmail := jsOrS d.customerEmail p.customerEmail
      customerId := jsOrS d.customerId p.customerId }
    let p2 :=
      if truthyN d.discountAmount && (d.discountAmount.getD 0 != p1.discountAmount) then
        { p1 with
          discountAmount := d.discountAmount.getD 0
          discountCode := jsOrS (d.discount.bind Discount.code) p1.discountCode
          discountId := jsOrS (jsOrS d.discountId (d.discount.bind Discount.did)) p1.discountId
          discountType := jsOrS (d.discount.bind Discount.dtype) p1.discountType
          amount := if truthyN d.netAmount then d.netAmount
                    else if truthyN d.amount then d.amount
                    else p1.amount }
      else p1
    let p3 := { p2 with metadata := { p2.metadata with
      updated_at := some now
      checkout_status := d.status
      net_amount := d.netAmount } }
    { s with payments := s.payments.set i p3 }

/-- handleOrderCreated: complete the payment found by checkout id (or
create a completed one when none exists), store the order id in its
metadata, project the tier of the user from the product, and fire the
generate-invoice collaborator whose every outcome (scheduled, 409
already-exists, failure) is absorbed. -/
def handleOrderCreated (d : EvData) (env : Collab) (now : Nat) (s : St) : St × Bool :=
  let step1 : St × Payment :=
    match findPaymentByCheckoutId s d.checkoutId with
    | none =>
      let p : Payment :=
        { pid := s.nextPid
          checkoutId := (jsOrS d.checkoutId (some d.id)).getD d.id
          customerId := d.customerId
          customerEmail := d.customer_email
          productId := d.productId
          productName := d.productName
          amount := d.totalAmount
          currency := d.currency.getD "USD"
          status := .completed
          eventType := "order.created"
          metadata :=
            { order_id := some d.id
              external_customer_id := d.customer_externalId } }
      ({ s with payments := s.payments ++ [p], nextPid := s.nextPid + 1 }, p)
    | some (i, p0) =>
      let p := { p0 with
        status := .completed
        eventType := "order.created"
        amount := d.totalAmount
        metadata := { p0.metadata with
          order_id := some d.id
          order_created_at := some now
          external_customer_id := d.customer_externalId } }
      ({ s with payments := s.payments.set i p }, p)
  let s1 := step1.1
  let pay := step1.2
  let ident := jsOrS d.customer_externalId (jsOrS d.customer_email pay.customerEmail)
  let s2 :=
    match findUserByEmail s1 ident with
    | none => s1
    | some (j, u) =>
      match findProduct s1 d.productId with
      | none => s1
      | some (_, prod) =>
        { s1 with users := s1.users.set j { u with
            subscriptionStatus := prod.tier
            polarCustomerId := d.customerId
            payments := if u.payments.contains pay.pid then u.payments
                        else u.payments ++ [pay.pid] } }
  match env.genInvoice with
  | .scheduled => (s2, false)
  | .conflict => (s2, false)
  | .failure => (s2, false)

/-- handleSubscriptionCreated: record a completed Payment tagged with
the subscription id and project the tier of the user and the subscription
fields from the product. -/
def handleSubscriptionCreated (d : EvData) (s : St) : St :=
  let p : Payment :=
    { pid := s.nextPid
      checkoutId := (jsOrS d.checkoutId (some d.id)).getD d.id
      customerId := d.customerId
      customerEmail := d.customer_email
      productId := d.productId
      productName := d.productName
      amount := some (toTruthyN0 d.amount)
      currency := if truthyS d.currency then d.currency.getD "" else "USD"
      status := .completed
      eventType := "subscription.created"
      metadata :=
        { subscription_id := some d.id
          status_field := d.status
          current_period_end := d.currentPeriodEnd
          external_customer_id := d.customer_externalId } }
  let s1 := { s with payments := s.payments ++ [p], nextPid := s.nextPid + 1 }
  match findUserByEmail s1 (jsOrS d.customer_externalId d.customer_email) with
  | none => s1
  | some (j, u) =>
    match findProduct s1 d.productId with
    | none => s1
    | some (_, prod) =>
      { s1 with users := s1.users.set j { u with
          subscriptionStatus := prod.tier
          subscriptionId := some d.id
          polarCustomerId := d.customerId
          subscriptionEndsAt := toTruthyS d.currentPeriodEnd
          payments := if u.payments.contains p.pid then u.payments
                      else u.payments ++ [p.pid] } }

/-- handleSubscriptionUpdated: refresh the tier and period end of the
user holding this subscription id, when the product is known. -/
def handleSubscriptionUpdated (d : EvData) (s : St) : St :=
  match findUserBySubId s d.id with
  | none => s
  | some (j, u) =>
    match findProduct s d.productId with
    | none => s
    | some (_, prod) =>
      { s with users := s.users.set j { u with
          subscriptionStatus := prod.tier
          subscriptionEndsAt := toTruthyS d.currentPeriodEnd } }

/-- handleSubscriptionCanceled: annotate the payment metadata only, and
force the subscribed user back to the free tier with the subscription
fields cleared. -/
def handleSubscriptionCanceled (d : EvData) (now : Nat) (s : St) : St :=
  let s1 :=
    match findPaymentBySubId s d.id with
    | none => s
    | some (i, p) =>
      { s with payments := s.payments.set i { p with
          metadata := { p.metadata with
            subscription_status := some "canceled"
            canceled_at := some now } } }
  match findUserBySubId s1 d.id with
  | none => s1
  | some (j, u) =>
    { s1 with users := s1.users.set j { u with
        subscriptionStatus := .free
        subscriptionId := none
        subscriptionEndsAt := none } }

/-- The paid form of a payment record after handleOrderPaid touched
it: status completed, provenance order.paid, paid stamp in the bag. -/
def paidUpdate (now : Nat) (p : Payment) : Payment :=
  { p with
    status := .completed
    eventType := "order.paid"
    metadata := { p.metadata with paid_at := some now, paid := true } }

/-- First half of handleOrderPaid: complete the payment found by the
stored order id and stamp paid metadata; silently skip when none
matches. -/
def orderPaidLedger (d : EvData) (now : Nat) (s : St) : St :=
  match findPaymentByOrderId s (some d.id) with
  | none => s
  | some (i, p) => { s with payments := s.payments.set i (paidUpdate now p) }

/-- Second half of handleOrderPaid: independently of whether a payment
matched, resolve the user from the nested customer fields and set the
tier from the product whenever it differs. -/
def orderPaidUser (d : EvData) (s : St) : St :=
  match findUserByEmail s (jsOrS d.customer_externalId d.customer_email) with
  | none => s
  | some (j, u) =>
    match findProduct s d.productId with
    | none => s
    | some (_, prod) =>
      if u.subscriptionStatus ≠ prod.tier then
        { s with users := s.users.set j { u with
            subscriptionStatus := prod.tier
            polarCustomerId := d.customerId } }
      else s

/-- handleOrderPaid: the ledger update followed by the user
projection, exactly as the two blocks of the source handler. -/
def handleOrderPaid (d : EvData) (now : Nat) (s : St) : St :=
  orderPaidUser d (orderPaidLedger d now s)

/-- handleCustomerCreated: find or create the user keyed by
externalId pipe-pipe email; backfill polarCustomerId when absent. -/
def handleCustomerCreated (d : EvData) (s : St) : St :=
  let ident := jsOrS d.externalId d.email
  match findUserByEmail s ident with
  | none =>
    if truthyS ident then
      { s with users := s.users ++
          [{ email := normEmail (ident.getD "")
             name := d.nameField.map trimName
             polarCustomerId := some d.id }] }
    else s
  | some (j, u) =>
    if !(truthyS u.polarCustomerId) then
      { s with users := s.users.set j { u with polarCustomerId := some d.id } }
    else s

/-- handleCustomerUpdated: for the user found by polarCustomerId,
overwrite the name when present and different, and overwrite the email
when present and different (the assignment runs the schema setters, so
the stored value is the normalized event email). -/
def handleCustomerUpdated (d : EvData) (s : St) : St :=
  match findUserByPolarId s d.id with
  | none => s
  | some (j, u) =>
    let u1 := if truthyS d.nameField && (d.nameField != u.name) then
        { u with name := d.nameField.map trimName } else u
    let u2 := if truthyS d.email && (d.email.getD "" != u1.email) then
        { u1 with email := normEmail (d.email.getD "") } else u1
    { s with users := s.users.set j u2 }

/-- handleOrderUpdated: when the invoice became available, fetch its
url and email it to the customer of the payment; the whole block sits in a
try-catch, so both a fetch rejection and an email rejection are
absorbed, and no record is mutated. -/
def handleOrderUpdated (d : EvData) (env : Collab) (s : St) : St × Bool :=
  if d.isInvoiceGenerated then
    match env.fetchInvoice with
    | none => (s, false)
    | some _url =>
      match findPaymentByOrderId s (some d.id) with
      | none => (s, false)
      | some (_, p) =>
        if truthyS p.customerEmail then
          match env.invoiceEmailOk with
          | true => (s, false)
          | false => (s, false)
        else (s, false)
  else (s, false)

/-- handleRefundCreated: mark the payment found by stored order id as
refunded and record the refund details; when benefits are revoked,
force the user found by the customer email of the payment back to free.
The closing sendRefundEmail call is NOT inside any try-catch, so a
rejected email promise propagates out of the handler (second component
true). -/
def handleRefundCreated (d : EvData) (env : Collab) (now : Nat) (s : St) : St × Bool :=
  match findPaymentByOrderId s d.orderId with
  | none => (s, false)
  | some (i, p) =>
    let p1 := { p with
      status := .refunded
      metadata := { p.metadata with
        refund_id := some d.id
        refund_amount := d.amount
        refund_reason := d.reason
        refunded_at := some now
        refund_comment := d.comment } }
    let s1 := { s with payments := s.payments.set i p1 }
    let s2 :=
      if d.revokeBenefits then
        match findUserByEmail s1 p.customerEmail with
        | none => s1
        | some (j, u) =>
          { s1 with users := s1.users.set j { u with
              subscriptionStatus := .free
              subscriptionId := none
              subscriptionEndsAt := none } }
      else s1
    if truthyS p.customerEmail then
      (s2, !env.refundEmailOk)
    else (s2, false)

/-- The event-type switch of the route.  The second component reports
whether the handler threw (only the unguarded refund email can). -/
def processVerified (etype : String) (d : EvData) (env : Collab) (now : Nat) (s : St) :
    St × Bool :=
  if etype == "checkout.created" then (handleCheckoutCreated d s, false)
  else if etype == "checkout.updated" then (handleCheckoutUpdated d now s, false)
  else if etype == "order.created" then handleOrderCreated d env now s
  else if etype == "subscription.created" then (handleSubscriptionCreated d s, false)
  else if etype == "subscription.updated" then (handleSubscriptionUpdated d s, false)
  else if etype == "subscription.canceled" then (handleSubscriptionCanceled d now s, false)
  else if etype == "order.paid" then (handleOrderPaid d now s, false)
  else if etype == "customer.created" then (handleCustomerCreated d s, false)
  else if etype == "customer.updated" then (handleCustomerUpdated d s, false)
  else if etype == "customer.state_changed" then (s, false)
  else if etype == "refund.created" then handleRefundCreated d env now s
  else if etype == "order.updated" then handleOrderUpdated d env s
  else (s, false)

/-- HTTP response of the webhook route: status code, and whether the
body is the acknowledgment object with received set to true. -/
structure WebhookResponse where
  stat : Nat
  received : Bool
deriving DecidableEq

/-- The POST /polar route.  A missing secret is a 500 before anything
runs; a verification failure is a 401 before any handler runs; a
handler that throws is caught and answered 500 (the store keeps the
writes already awaited); otherwise the event is acknowledged 200 with
received true. -/
def processRequest (secretConfigured : Bool) (verified : Except Unit Ev)
    (env : Collab) (now : Nat) (s : St) : WebhookResponse × St :=
  if !secretConfigured then ({ stat := 500, received := false }, s)
  else
    match verified with
    | .error _ => ({ stat := 401, received := false }, s)
    | .ok ev =>
      let r := processVerified ev.etype ev.data env now s
      if r.2 then ({ stat := 500, received := false }, r.1)
      else ({ stat := 200, received := true }, r.1)

/-! Helper lemmas about the findOne model and list updates. -/

theorem findFirst?_get {α : Type} {q : α → Bool} {l : List α} {i : Nat} {a : α}
    (h : findFirst? q l = some (i, a)) : l.get? i = some a ∧ q a = true := by
  induction l generalizing i with
  | nil => simp [findFirst?] at h
  | cons x xs ih =>
    rw [findFirst?] at h
    by_cases hx : q x
    · rw [if_pos hx] at h
      simp only [Option.some.injEq, Prod.mk.injEq] at h
      obtain ⟨hi, ha⟩ := h
      subst hi; subst ha
      exact ⟨rfl, hx⟩
    · rw [if_neg hx] at h
      obtain ⟨⟨j, b⟩, hj, he⟩ := Option.map_eq_some'.mp h
      simp only [Prod.mk.injEq] at he
      obtain ⟨hi, ha⟩ := he
      subst hi; subst ha
      simpa using ih hj

theorem findFirst?_lt {α : Type} {q : α → Bool} {l : List α} {i : Nat} {a : α}
    (h : findFirst? q l = some (i, a)) : i < l.length :=
  (List.get?_eq_some.mp (findFirst?_get h).1).1

theorem findFirst?_none_iff {α : Type} {q : α → Bool} {l : List α} :
    findFirst? q l = none ↔ ∀ a ∈ l, q a = false := by
  induction l with
  | nil => simp [findFirst?]
  | cons x xs ih =>
    rw [findFirst?]
    by_cases hx : q x
    · simp [if_pos hx, hx]
    · have hx2 : q x = false := by simpa using hx
      rw [if_neg hx]
      simp [Option.map_eq_none', ih, hx2]

theorem findFirst?_append_singleton {α : Type} {q : α → Bool} {l : List α} {a : α}
    (h : findFirst? q l = none) (ha : q a = true) :
    findFirst? q (l ++ [a]) = some (l.length, a) := by
  induction l with
  | nil => simp [findFirst?, ha]
  | cons x xs ih =>
    rw [findFirst?] at h
    by_cases hx : q x
    · rw [if_pos hx] at h; exact absurd h (by simp)
    · rw [if_neg hx] at h
      have h2 : findFirst? q xs = none := Option.map_eq_none'.mp h
      simp only [List.cons_append]
      rw [findFirst?, if_neg hx, ih h2]
      simp

theorem findFirst?_set {α : Type} {q : α → Bool} {l : List α} {i : Nat} {a b : α}
    (h : findFirst? q l = some (i, a)) (hb : q b = true) :
    findFirst? q (l.set i b) = some (i, b) := by
  induction l generalizing i with
  | nil => simp [findFirst?] at h
  | cons x xs ih =>
    rw [findFirst?] at h
    by_cases hx : q x
    · rw [if_pos hx] at h
      simp only [Option.some.injEq, Prod.mk.injEq] at h
      obtain ⟨hi, _⟩ := h
      subst hi
      simp [List.set, findFirst?, hb]
    · rw [if_neg hx] at h
      obtain ⟨⟨j, c⟩, hj, he⟩ := Option.map_eq_some'.mp h
      simp only [Prod.mk.injEq] at he
      obtain ⟨hi, ha⟩ := he
      subst hi
      subst ha
      simp only [List.set]
      rw [findFirst?, if_neg hx, ih hj]
      simp

theorem get?_set_self {α : Type} {l : List α} {i : Nat} {b : α} (h : i < l.length) :
    (l.set i b).get? i = some b := by
  induction l generalizing i with
  | nil => simp at h
  | cons x xs ih =>
    cases i with
    | zero => simp [List.set]
    | succ j =>
      simp only [List.set, List.get?_cons_succ]
      exact ih (by simpa using h)

theorem getElem?_set_self {α : Type} {l : List α} {i : Nat} {b : α} (h : i < l.length) :
    (l.set i b)[i]? = some b := by
  rw [← List.get?_eq_getElem?]
  exact get?_set_self h

theorem set_append_singleton {α : Type} {l : List α} {a b : α} :
    (l ++ [a]).set l.length b = l ++ [b] := by
  induction l with
  | nil => simp [List.set]
  | cons x xs ih => simp [List.set, ih]

theorem countP_set_of_unique {α : Type} {q r : α → Bool} {l : List α} {i : Nat} {a b : α}
    (hmono : ∀ x, r x = true → q x = true)
    (hfind : findFirst? q l = some (i, a))
    (hcount : l.countP q = 1)
    (hrb : r b = true) :
    (l.set i b).countP r = 1 := by
  induction l generalizing i with
  | nil => simp [findFirst?] at hfind
  | cons x xs ih =>
    rw [findFirst?] at hfind
    by_cases hx : q x
    · rw [if_pos hx] at hfind
      simp only [Option.some.injEq, Prod.mk.injEq] at hfind
      obtain ⟨hi, _⟩ := hfind
      subst hi
      rw [List.countP_cons, if_pos hx] at hcount
      have hzero : xs.countP q = 0 := by omega
      have hr0 : xs.countP r = 0 := by
        rw [List.countP_eq_zero] at hzero ⊢
        intro y hy hry
        exact hzero y hy (hmono y (by simpa using hry))
      simp [List.set, List.countP_cons, hrb, hr0]
    · rw [if_neg hx] at hfind
      obtain ⟨⟨j, c⟩, hj, he⟩ := Option.map_eq_some'.mp hfind
      simp only [Prod.mk.injEq] at he
      obtain ⟨hi, ha⟩ := he
      subst hi
      subst ha
      have hx2 : q x = false := by simpa using hx
      rw [List.countP_cons, hx2] at hcount
      simp at hcount
      have hrx : r x = false := by
        by_contra hc
        have : q x = true := hmono x (by simpa using hc)
        simp [this] at hx2
      simp only [List.set, List.countP_cons, hrx]
      have := ih hj (by omega)
      simp [this]

theorem findFirst?_pos_of_countP_one {α : Type} {q : α → Bool} {l : List α}
    (h : l.countP q = 1) : ∃ i a, findFirst? q l = some (i, a) := by
  cases hf : findFirst? q l with
  | some ia => exact ⟨ia.1, ia.2, rfl⟩
  | none =>
    have hall := findFirst?_none_iff.mp hf
    have : l.countP q = 0 := List.countP_eq_zero.mpr (by intro y hy; simp [hall y hy])
    omega

/-! Frame and throw-characterization lemmas about the handlers. -/

theorem orderPaidUser_payments (d : EvData) (s : St) :
    (orderPaidUser d s).payments = s.payments := by
  unfold orderPaidUser
  repeat' split
  all_goals rfl

/-- The generate-invoice call of handleOrderCreated sits in a
try-catch: no outcome of the collaborator makes the handler throw. -/
theorem handleOrderCreated_snd (d : EvData) (env : Collab) (now : Nat) (s : St) :
    (handleOrderCreated d env now s).2 = false := by
  unfold handleOrderCreated
  cases env.genInvoice <;> rfl

/-- The invoice fetch and the invoice email of handleOrderUpdated both
sit in a try-catch: no collaborator outcome makes the handler throw. -/
theorem handleOrderUpdated_snd (d : EvData) (env : Collab) (s : St) :
    (handleOrderUpdated d env s).2 = false := by
  unfold handleOrderUpdated
  repeat' split
  all_goals rfl

/-- handleOrderUpdated never mutates the store. -/
theorem handleOrderUpdated_state (d : EvData) (env : Collab) (s : St) :
    (handleOrderUpdated d env s).1 = s := by
  unfold handleOrderUpdated
  repeat' split
  all_goals rfl

/-- The condition under which the unguarded sendRefundEmail call of
handleRefundCreated rejects: a payment matched the order id of the refund,
it carries a truthy customer email, and the email collaborator fails. -/
def refundEmailFailure (env : Collab) (d : EvData) (s : St) : Bool :=
  match findPaymentByOrderId s d.orderId with
  | none => false
  | some (_, p) => truthyS p.customerEmail && !env.refundEmailOk

theorem handleRefundCreated_snd (d : EvData) (env : Collab) (now : Nat) (s : St) :
    (handleRefundCreated d env now s).2 = refundEmailFailure env d s := by
  unfold handleRefundCreated refundEmailFailure
  cases findPaymentByOrderId s d.orderId with
  | none => rfl
  | some ip =>
    obtain ⟨i, p⟩ := ip
    by_cases hc : truthyS p.customerEmail
    · simp only [hc]
      by_cases hr : d.revokeBenefits <;> simp [hr]
    · have hc2 : truthyS p.customerEmail = false := by simpa using hc
      simp only [hc2]
      by_cases hr : d.revokeBenefits <;> simp [hr]

/-- The only way processing a verified event throws is the unguarded
refund-email rejection inside refund.created handling. -/
theorem processVerified_snd (etype : String) (d : EvData) (env : Collab) (now : Nat) (s : St) :
    (processVerified etype d env now s).2 =
      ((etype == "refund.created") && refundEmailFailure env d s) := by
  unfold processVerified
  by_cases h1 : (etype == "checkout.created") = true
  · rw [if_pos h1]; rw [show etype = "checkout.created" from beq_iff_eq.mp h1]; rfl
  rw [if_neg h1]
  by_cases h2 : (etype == "checkout.updated") = true
  · rw [if_pos h2]; rw [show etype = "checkout.updated" from beq_iff_eq.mp h2]; rfl
  rw [if_neg h2]
  by_cases h3 : (etype == "order.created") = true
  · rw [if_pos h3]
    rw [show etype = "order.created" from beq_iff_eq.mp h3]
    rw [handleOrderCreated_snd]; rfl
  rw [if_neg h3]
  by_cases h4 : (etype == "subscription.created") = true
  · rw [if_pos h4]; rw [show etype = "subscription.created" from beq_iff_eq.mp h4]; rfl
  rw [if_neg h4]
  by_cases h5 : (etype == "subscription.updated") = true
  · rw [if_pos h5]; rw [show etype = "subscription.updated" from beq_iff_eq.mp h5]; rfl
  rw [if_neg h5]
  by_cases h6 : (etype == "subscription.canceled") = true
  · rw [if_pos h6]; rw [show etype = "subscription.canceled" from beq_iff_eq.mp h6]; rfl
  rw [if_neg h6]
  by_cases h7 : (etype == "order.paid") = true
  · rw [if_pos h7]; rw [show etype = "order.paid" from beq_iff_eq.mp h7]; rfl
  rw [if_neg h7]
  by_cases h8 : (etype == "customer.created") = true
  · rw [if_pos h8]; rw [show etype = "customer.created" from beq_iff_eq.mp h8]; rfl
  rw [if_neg h8]
  by_cases h9 : (etype == "customer.updated") = true
  · rw [if_pos h9]; rw [show etype = "customer.updated" from beq_iff_eq.mp h9]; rfl
  rw [if_neg h9]
  by_cases h10 : (etype == "customer.state_changed") = true
  · rw [if_pos h10]; rw [show etype = "customer.state_changed" from beq_iff_eq.mp h10]; rfl
  rw [if_neg h10]
  by_cases h11 : (etype == "refund.created") = true
  · rw [if_pos h11]
    rw [show etype = "refund.created" from beq_iff_eq.mp h11]
    rw [handleRefundCreated_snd]; rfl
  rw [if_neg h11]
  have h11f : (etype == "refund.created") = false := by simpa using h11
  by_cases h12 : (etype == "order.updated") = true
  · rw [if_pos h12]
    rw [handleOrderUpdated_snd, h11f]
    rfl
  rw [if_neg h12, h11f]
  rfl

theorem checkoutPayment_pid (d : EvData) (i : Option String) (n : Nat) :
    (checkoutPayment d i n).pid = n := rfl

/-- Shape of handleCheckoutCreated when the resolved identifier is
truthy and no user matches it: a user is created (email stored through
the schema setters), the new payment is appended, and its id is linked
into the owned list of the fresh user. -/
theorem handleCheckoutCreated_new (d : EvData) (s : St) (e : String)
    (h1 : jsOrS d.externalCustomerId d.customerEmail = some e) (h2 : e ≠ "")
    (h3 : findUserByEmail s (some e) = none) :
    handleCheckoutCreated d s =
      { users := s.users ++
          [{ email := normEmail e, name := d.customerName.map trimName,
             polarCustomerId := d.customerId, subscriptionStatus := .free,
             subscriptionId := none, subscriptionEndsAt := none,
             payments := [s.nextPid] }],
        payments := s.payments ++ [checkoutPayment d (some e) s.nextPid],
        products := s.products,
        nextPid := s.nextPid + 1 } := by
  have ht : truthyS (some e) = true := by simp [truthyS, h2]
  simp only [handleCheckoutCreated, h1, h3, ht, if_true]
  rw [set_append_singleton]
  simp [checkoutPayment_pid]

/-- Shape of handleCheckoutCreated when a user already matches the
resolved identifier: no user is created, the payment id is appended to
the owned list of the matched user, and the email of that user is unchanged. -/
theorem handleCheckoutCreated_existing (d : EvData) (s : St) (e : String) (i : Nat) (u : User)
    (h1 : jsOrS d.externalCustomerId d.customerEmail = some e)
    (h3 : findUserByEmail s (some e) = some (i, u)) :
    (handleCheckoutCreated d s).users.length = s.users.length ∧
    (handleCheckoutCreated d s).payments =
      s.payments ++ [checkoutPayment d (some e) s.nextPid] ∧
    ∃ u2, (handleCheckoutCreated d s).users.get? i = some u2 ∧
      u2.email = u.email ∧ u2.payments = u.payments ++ [s.nextPid] := by
  have hlt : i < s.users.length := findFirst?_lt h3
  simp only [handleCheckoutCreated, h1, h3]
  by_cases hc : truthyS d.customerId
  · simp only [hc, if_true, List.set_set]
    exact ⟨by simp, by trivial, _, get?_set_self hlt, by trivial, by trivial⟩
  · have hc2 : truthyS d.customerId = false := by simpa using hc
    simp only [hc2, Bool.false_eq_true, if_false]
    exact ⟨by simp, by trivial, _, get?_set_self hlt, by trivial, by trivial⟩

/-! Claim theorems. -/

/-- C2 counterexample: the claim that a refunded Payment is never moved
back by a non-refund event is false.  Concretely, a Payment whose
status is refunded (order id "ord_2" stored in its metadata) is set
back to completed by a later "order.paid" event carrying that id. -/
theorem c2_counterexample :
    (([{ checkoutId := "co_2", eventType := "refund.created",
         status := PStatus.refunded,
         metadata := { order_id := some "ord_2" } }] : List Payment).map Payment.status
      = [PStatus.refunded]) ∧
    ((handleOrderPaid { id := "ord_2" } 5
        { payments := [{ checkoutId := "co_2", eventType := "refund.created",
                         status := PStatus.refunded,
                         metadata := { order_id := some "ord_2" } }],
          nextPid := 1 }).payments.map Payment.status = [PStatus.completed]) := by
  decide

/-- C2 amended: handleOrderPaid carries no refunded-status guard: for
every Payment matched by stored order id, even one whose status is
refunded, the event sets status back to completed and provenance to
"order.paid". -/
theorem c2_amended_no_refund_guard (d : EvData) (now : Nat) (s : St) (i : Nat) (p : Payment)
    (h1 : findPaymentByOrderId s (some d.id) = some (i, p))
    (h2 : p.status = PStatus.refunded) :
    ((handleOrderPaid d now s).payments.get? i).map Payment.status =
      some PStatus.completed ∧
    ((handleOrderPaid d now s).payments.get? i).map Payment.eventType =
      some "order.paid" := by
  have hlt : i < s.payments.length := findFirst?_lt h1
  unfold handleOrderPaid
  rw [orderPaidUser_payments]
  unfold orderPaidLedger
  rw [h1]
  simp [get?_set_self hlt, getElem?_set_self hlt, paidUpdate]

theorem c2_amended_no_refund_guard_witness :
    (findPaymentByOrderId
        { payments := [{ checkoutId := "co_2", eventType := "refund.created",
                         status := PStatus.refunded,
                         metadata := { order_id := some "ord_2" } }],
          nextPid := 1 } (some "ord_2") =
      some (0, { checkoutId := "co_2", eventType := "refund.created",
                 status := PStatus.refunded,
                 metadata := { order_id := some "ord_2" } })) ∧
    (({ checkoutId := "co_2", eventType := "refund.created",
        status := PStatus.refunded,
        metadata := { order_id := some "ord_2" } } : Payment).status =
      PStatus.refunded) ∧
    ((handleOrderPaid { id := "ord_2" } 5
        { payments := [{ checkoutId := "co_2", eventType := "refund.created",
                         status := PStatus.refunded,
                         metadata := { order_id := some "ord_2" } }],
          nextPid := 1 }).payments.get? 0).map Payment.status =
      some PStatus.completed :=
  ⟨by decide, by decide,
    (c2_amended_no_refund_guard { id := "ord_2" } 5
      { payments := [{ checkoutId := "co_2", eventType := "refund.created",
                       status := PStatus.refunded,
                       metadata := { order_id := some "ord_2" } }],
        nextPid := 1 } 0
      { checkoutId := "co_2", eventType := "refund.created",
        status := PStatus.refunded,
        metadata := { order_id := some "ord_2" } }
      (by decide) (by decide)).1⟩

/-- C3 counterexample: an "order.paid" event whose order id matches no
stored Payment can still mutate a User record: with one free-tier user
resolvable from the nested customer email and a known product of a
different tier, processing upgrades the user even though no Payment
matched. -/
theorem c3_counterexample :
    (findPaymentByOrderId
        { users := [{ email := "a@x.com" }],
          products := [{ polarProductId := "prod_1", tier := Tier.pro }] }
        (some "ord_9") = none) ∧
    ((handleOrderPaid
        { id := "ord_9", customer_email := some "a@x.com",
          productId := some "prod_1", customerId := some "cus_1" } 0
        { users := [{ email := "a@x.com" }],
          products := [{ polarProductId := "prod_1", tier := Tier.pro }] }).users ≠
      [{ email := "a@x.com" }]) := by
  decide

/-- C3 amended: an "order.paid" event matching no stored Payment
performs no Payment mutation and still yields the 200 acknowledgment;
however the User frame is not preserved: the handler independently
resolves a user from the customer fields and may update it. -/
theorem c3_amended_payment_frame (d : EvData) (env : Collab) (now : Nat) (s : St)
    (h : findPaymentByOrderId s (some d.id) = none) :
    (handleOrderPaid d now s).payments = s.payments ∧
    (processRequest true (.ok { etype := "order.paid", data := d }) env now s).1 =
      { stat := 200, received := true } := by
  constructor
  · unfold handleOrderPaid orderPaidLedger
    rw [h]
    exact orderPaidUser_payments d s
  · rfl

theorem c3_amended_payment_frame_witness :
    (findPaymentByOrderId
        { users := [{ email := "a@x.com" }],
          products := [{ polarProductId := "prod_1", tier := Tier.pro }] }
        (some "ord_9") = none) ∧
    (handleOrderPaid
        { id := "ord_9", customer_email := some "a@x.com",
          productId := some "prod_1", customerId := some "cus_1" } 0
        { users := [{ email := "a@x.com" }],
          products := [{ polarProductId := "prod_1", tier := Tier.pro }] }).payments =
      ({ users := [{ email := "a@x.com" }],
         products := [{ polarProductId := "prod_1", tier := Tier.pro }] } : St).payments :=
  ⟨by decide,
    (c3_amended_payment_frame
      { id := "ord_9", customer_email := some "a@x.com",
        productId := some "prod_1", customerId := some "cus_1" } {} 0
      { users := [{ email := "a@x.com" }],
        products := [{ polarProductId := "prod_1", tier := Tier.pro }] }
      (by decide)).1⟩

/-- C6: the claim is right and the code has a falsy-zero slip.  For a
"checkout.created" event carrying netAmount 0 (a 100 percent discount)
and gross amount 2000, the source computes the stored amount as
netAmount pipe-pipe amount pipe-pipe 0, and since 0 is falsy in JS the
net amount is skipped: the created Payment stores amount 2000 (the
gross value), not the net 0 the inline comment, the repository
documentation and the spec call for.  originalAmount is 2000 as
claimed. -/
theorem c6_net_zero_failing_input :
    ((handleCheckoutCreated
        { id := "co_100", customerEmail := some "c@x.com",
          netAmount := some 0, amount := some 2000,
          discountAmount := some 2000 } {}).payments.map Payment.amount
      = [some 2000]) ∧
    ¬ ((handleCheckoutCreated
        { id := "co_100", customerEmail := some "c@x.com",
          netAmount := some 0, amount := some 2000,
          discountAmount := some 2000 } {}).payments.map Payment.amount
      = [some 0]) ∧
    ((handleCheckoutCreated
        { id := "co_100", customerEmail := some "c@x.com",
          netAmount := some 0, amount := some 2000,
          discountAmount := some 2000 } {}).payments.map Payment.originalAmount
      = [some 2000]) := by
  decide

/-- C1 counterexample: a request whose signature verifies is not
always answered 200.  With a stored Payment matching the refund order
id and carrying a customer email, and a refund-email collaborator that
rejects, the verified "refund.created" request is answered 500. -/
theorem c1_counterexample :
    ((processRequest true
        (.ok { etype := "refund.created",
               data := { id := "re_1", orderId := some "ord_1" } })
        { refundEmailOk := false } 0
        { payments := [{ checkoutId := "co_1", eventType := "order.created",
                         customerEmail := some "a@x.com",
                         metadata := { order_id := some "ord_1" } }],
          nextPid := 1 }).1.stat = 500) ∧
    ((processRequest true
        (.ok { etype := "refund.created",
               data := { id := "re_1", orderId := some "ord_1" } })
        { refundEmailOk := false } 0
        { payments := [{ checkoutId := "co_1", eventType := "order.created",
                         customerEmail := some "a@x.com",
                         metadata := { order_id := some "ord_1" } }],
          nextPid := 1 }).1.received = false) := by
  decide

/-- C1 amended: with the secret configured, a verified request is
answered 200 with received true whenever processing does not throw,
and 500 when it does; the only throwing path is the unguarded
refund-email rejection of "refund.created" handling, characterized by
refundEmailFailure.  A request failing verification is answered 401
and the store is returned untouched (no Payment or User mutation). -/
theorem c1_amended_response (ev : Ev) (env : Collab) (now : Nat) (s : St) :
    ((processVerified ev.etype ev.data env now s).2 = false →
      (processRequest true (.ok ev) env now s).1 = { stat := 200, received := true }) ∧
    ((processVerified ev.etype ev.data env now s).2 = true →
      (processRequest true (.ok ev) env now s).1 = { stat := 500, received := false }) ∧
    ((processVerified ev.etype ev.data env now s).2 =
      ((ev.etype == "refund.created") && refundEmailFailure env ev.data s)) ∧
    (processRequest true (.error ()) env now s = ({ stat := 401, received := false }, s)) := by
  refine ⟨?_, ?_, processVerified_snd ev.etype ev.data env now s, rfl⟩
  · intro h
    simp [processRequest, h]
  · intro h
    simp [processRequest, h]

theorem c1_amended_response_witness :
    ((processVerified "customer.state_changed" { id := "cus_9" } {} 0 {}).2 = false) ∧
    ((processRequest true
        (.ok { etype := "customer.state_changed", data := { id := "cus_9" } }) {} 0 {}).1 =
      { stat := 200, received := true }) ∧
    (processRequest true (.error ()) {} 0 {} = ({ stat := 401, received := false }, ({} : St))) :=
  ⟨by decide,
    (c1_amended_response
      { etype := "customer.state_changed", data := { id := "cus_9" } } {} 0 {}).1 (by decide),
    (c1_amended_response
      { etype := "customer.state_changed", data := { id := "cus_9" } } {} 0 {}).2.2.2⟩

/-- C4 counterexample: not every side-effect collaborator failure is
absorbed.  A rejected refund-email call during "refund.created"
handling (payment matched, customer email present) escapes to the
route catch and the webhook answers 500, not 200. -/
theorem c4_counterexample :
    (processRequest true
      (.ok { etype := "refund.created",
             data := { id := "re_77", orderId := some "ord_77" } })
      { refundEmailOk := false } 3
      { payments := [{ checkoutId := "co_77", eventType := "order.created",
                       customerEmail := some "b@y.com",
                       metadata := { order_id := some "ord_77" } }],
        nextPid := 1 }).1 = { stat := 500, received := false } := by
  decide

theorem handleOrderCreated_fst (d : EvData) (env env2 : Collab) (now : Nat) (s : St) :
    (handleOrderCreated d env now s).1 = (handleOrderCreated d env2 now s).1 := by
  unfold handleOrderCreated
  cases env.genInvoice <;> cases env2.genInvoice <;> rfl

theorem refundEmailFailure_ok (env : Collab) (d : EvData) (s : St)
    (henv : env.refundEmailOk = true) : refundEmailFailure env d s = false := by
  unfold refundEmailFailure
  cases findPaymentByOrderId s d.orderId with
  | none => rfl
  | some ip => obtain ⟨i, p⟩ := ip; simp [henv]

/-- C4 amended: the invoice-generation call after "order.created" is
absorbed for every outcome (scheduled, 409 already-exists, failure):
the response is 200 and the resulting store does not depend on the
outcome.  The invoice fetch and invoice email of "order.updated" are
likewise absorbed (200, store untouched).  But the refund email of
"refund.created" is NOT absorbed: when it resolves the response is
200, and when it rejects while a Payment with a customer email matched
the refund, the response is 500. -/
theorem c4_amended_absorption (d : EvData) (env env2 : Collab) (now : Nat) (s : St) :
    ((processRequest true (.ok { etype := "order.created", data := d }) env now s).1 =
      { stat := 200, received := true }) ∧
    ((processVerified "order.created" d env now s).1 =
      (processVerified "order.created" d env2 now s).1) ∧
    ((processRequest true (.ok { etype := "order.updated", data := d }) env now s).1 =
      { stat := 200, received := true }) ∧
    ((processRequest true (.ok { etype := "order.updated", data := d }) env now s).2 = s) ∧
    (env.refundEmailOk = true →
      (processRequest true (.ok { etype := "refund.created", data := d }) env now s).1 =
        { stat := 200, received := true }) ∧
    (∀ i p, findPaymentByOrderId s d.orderId = some (i, p) →
      truthyS p.customerEmail = true → env.refundEmailOk = false →
      (processRequest true (.ok { etype := "refund.created", data := d }) env now s).1 =
        { stat := 500, received := false }) := by
  have hoc : (processVerified "order.created" d env now s).2 = false :=
    handleOrderCreated_snd d env now s
  have hou : (processVerified "order.updated" d env now s).2 = false :=
    handleOrderUpdated_snd d env s
  refine ⟨?_, handleOrderCreated_fst d env env2 now s, ?_, ?_, ?_, ?_⟩
  · simp [processRequest, hoc]
  · simp [processRequest, hou]
  · simp [processRequest, hou]
    exact handleOrderUpdated_state d env s
  · intro henv
    have hsnd : (processVerified "refund.created" d env now s).2 = false := by
      have := processVerified_snd "refund.created" d env now s
      rw [this, refundEmailFailure_ok env d s henv]
      simp
    simp [processRequest, hsnd]
  · intro i p hf hemail henv
    have hsnd : (processVerified "refund.created" d env now s).2 = true := by
      rw [processVerified_snd]
      unfold refundEmailFailure
      rw [hf]
      simp [hemail, henv]
    simp [processRequest, hsnd]

theorem c4_amended_absorption_witness :
    (({ genInvoice := GenInvoiceOutcome.conflict } : Collab).refundEmailOk = true) ∧
    ((processRequest true
        (.ok { etype := "order.created",
               data := { id := "ord_40", totalAmount := some 900 } })
        { genInvoice := GenInvoiceOutcome.conflict } 0 {}).1 =
      { stat := 200, received := true }) ∧
    ((processRequest true
        (.ok { etype := "refund.created", data := { id := "re_40" } })
        { genInvoice := GenInvoiceOutcome.conflict } 0 {}).1 =
      { stat := 200, received := true }) :=
  ⟨by decide,
    (c4_amended_absorption { id := "ord_40", totalAmount := some 900 }
      { genInvoice := GenInvoiceOutcome.conflict } {} 0 {}).1,
    (c4_amended_absorption { id := "re_40" }
      { genInvoice := GenInvoiceOutcome.conflict } {} 0 {}).2.2.2.2.1 (by decide)⟩

/-- C9: a verified event whose type is none of the twelve handled
strings falls into the default arm: no Payment or User record is
touched (the store is returned unchanged) and the route still answers
200 with received true. -/
theorem c9_unhandled_event_frame (etype : String) (d : EvData) (env : Collab)
    (now : Nat) (s : St)
    (h : etype ∉ (["checkout.created", "checkout.updated", "order.created",
      "subscription.created", "subscription.updated", "subscription.canceled",
      "order.paid", "customer.created", "customer.updated", "customer.state_changed",
      "refund.created", "order.updated"] : List String)) :
    processRequest true (.ok { etype := etype, data := d }) env now s =
      ({ stat := 200, received := true }, s) := by
  simp only [List.mem_cons, List.not_mem_nil, or_false, not_or] at h
  obtain ⟨n1, n2, n3, n4, n5, n6, n7, n8, n9, n10, n11, n12⟩ := h
  have b1 : (etype == "checkout.created") = false := beq_eq_false_iff_ne.mpr n1
  have b2 : (etype == "checkout.updated") = false := beq_eq_false_iff_ne.mpr n2
  have b3 : (etype == "order.created") = false := beq_eq_false_iff_ne.mpr n3
  have b4 : (etype == "subscription.created") = false := beq_eq_false_iff_ne.mpr n4
  have b5 : (etype == "subscription.updated") = false := beq_eq_false_iff_ne.mpr n5
  have b6 : (etype == "subscription.canceled") = false := beq_eq_false_iff_ne.mpr n6
  have b7 : (etype == "order.paid") = false := beq_eq_false_iff_ne.mpr n7
  have b8 : (etype == "customer.created") = false := beq_eq_false_iff_ne.mpr n8
  have b9 : (etype == "customer.updated") = false := beq_eq_false_iff_ne.mpr n9
  have b10 : (etype == "customer.state_changed") = false := beq_eq_false_iff_ne.mpr n10
  have b11 : (etype == "refund.created") = false := beq_eq_false_iff_ne.mpr n11
  have b12 : (etype == "order.updated") = false := beq_eq_false_iff_ne.mpr n12
  simp [processRequest, processVerified, b1, b2, b3, b4, b5, b6, b7, b8, b9, b10,
    b11, b12]

theorem c9_unhandled_event_frame_witness :
    ("benefit.granted" ∉ (["checkout.created", "checkout.updated", "order.created",
      "subscription.created", "subscription.updated", "subscription.canceled",
      "order.paid", "customer.created", "customer.updated", "customer.state_changed",
      "refund.created", "order.updated"] : List String)) ∧
    (processRequest true
        (.ok { etype := "benefit.granted", data := { id := "ben_1" } }) {} 7
        { users := [{ email := "a@x.com" }], nextPid := 4 } =
      ({ stat := 200, received := true },
        { users := [{ email := "a@x.com" }], nextPid := 4 })) :=
  ⟨by decide,
    c9_unhandled_event_frame "benefit.granted" { id := "ben_1" } {} 7
      { users := [{ email := "a@x.com" }], nextPid := 4 } (by decide)⟩

/-- C5: redelivering the same "order.paid" event is idempotent on the
Payment ledger.  With exactly one stored Payment carrying the order id,
processing leaves the row count unchanged, yields exactly one Payment
matching the order id with status completed and provenance
"order.paid", and a second application of the same event leaves the
ledger exactly as the first left it. -/
theorem c5_order_paid_idempotent (d : EvData) (now : Nat) (s : St)
    (h : s.payments.countP (fun p => p.metadata.order_id == some d.id) = 1) :
    (handleOrderPaid d now s).payments.length = s.payments.length ∧
    (handleOrderPaid d now s).payments.countP
      (fun p => p.metadata.order_id == some d.id && p.status == PStatus.completed &&
        p.eventType == "order.paid") = 1 ∧
    (handleOrderPaid d now (handleOrderPaid d now s)).payments =
      (handleOrderPaid d now s).payments := by
  obtain ⟨i, p, hf⟩ := findFirst?_pos_of_countP_one h
  have hqp : (fun p : Payment => p.metadata.order_id == some d.id) p = true :=
    (findFirst?_get hf).2
  have hlt : i < s.payments.length := findFirst?_lt hf
  have hfind_eq : findPaymentByOrderId s (some d.id) =
      findFirst? (fun p : Payment => p.metadata.order_id == some d.id) s.payments := rfl
  have hledger : (orderPaidLedger d now s).payments =
      s.payments.set i (paidUpdate now p) := by
    unfold orderPaidLedger
    rw [hfind_eq, hf]
  have hpay1 : (handleOrderPaid d now s).payments =
      s.payments.set i (paidUpdate now p) := by
    unfold handleOrderPaid
    rw [orderPaidUser_payments, hledger]
  have hqb : (fun p : Payment => p.metadata.order_id == some d.id)
      (paidUpdate now p) = true := by
    simpa [paidUpdate] using hqp
  refine ⟨?_, ?_, ?_⟩
  · rw [hpay1]; simp
  · rw [hpay1]
    apply countP_set_of_unique ?_ hf h ?_
    · intro x hx
      simp only [Bool.and_eq_true] at hx
      exact hx.1.1
    · simp [paidUpdate]
      simpa [paidUpdate] using hqp
  · have hfind_eq2 : findPaymentByOrderId (handleOrderPaid d now s) (some d.id) =
        findFirst? (fun p : Payment => p.metadata.order_id == some d.id)
          (handleOrderPaid d now s).payments := rfl
    have hf2 : findFirst? (fun p : Payment => p.metadata.order_id == some d.id)
        (handleOrderPaid d now s).payments = some (i, paidUpdate now p) := by
      rw [hpay1]
      exact findFirst?_set hf hqb
    have hidem : paidUpdate now (paidUpdate now p) = paidUpdate now p := rfl
    have hledger2 : (orderPaidLedger d now (handleOrderPaid d now s)).payments =
        (handleOrderPaid d now s).payments.set i (paidUpdate now p) := by
      unfold orderPaidLedger
      rw [hfind_eq2, hf2]
      rfl
    calc (handleOrderPaid d now (handleOrderPaid d now s)).payments
        = (orderPaidLedger d now (handleOrderPaid d now s)).payments := by
          unfold handleOrderPaid
          rw [orderPaidUser_payments]
      _ = (handleOrderPaid d now s).payments.set i (paidUpdate now p) := hledger2
      _ = (s.payments.set i (paidUpdate now p)).set i (paidUpdate now p) := by
          rw [hpay1]
      _ = s.payments.set i (paidUpdate now p) := List.set_set ..
      _ = (handleOrderPaid d now s).payments := hpay1.symm

theorem c5_order_paid_idempotent_witness :
    (St.payments
        { payments := [{ checkoutId := "co_5", eventType := "order.created",
                         status := PStatus.completed,
                         metadata := { order_id := some "ord_5" } }],
          nextPid := 1 }).countP
      (fun p => p.metadata.order_id == some "ord_5") = 1 ∧
    (St.payments
        (handleOrderPaid { id := "ord_5" } 9
          { payments := [{ checkoutId := "co_5", eventType := "order.created",
                           status := PStatus.completed,
                           metadata := { order_id := some "ord_5" } }],
            nextPid := 1 })).countP
      (fun p => p.metadata.order_id == some "ord_5" && p.status == PStatus.completed &&
        p.eventType == "order.paid") = 1 ∧
    St.payments
        (handleOrderPaid { id := "ord_5" } 9
          (handleOrderPaid { id := "ord_5" } 9
            { payments := [{ checkoutId := "co_5", eventType := "order.created",
                             status := PStatus.completed,
                             metadata := { order_id := some "ord_5" } }],
              nextPid := 1 })) =
      St.payments
        (handleOrderPaid { id := "ord_5" } 9
          { payments := [{ checkoutId := "co_5", eventType := "order.created",
                           status := PStatus.completed,
                           metadata := { order_id := some "ord_5" } }],
            nextPid := 1 }) :=
  ⟨by decide,
    (c5_order_paid_idempotent { id := "ord_5" } 9
      { payments := [{ checkoutId := "co_5", eventType := "order.created",
                       status := PStatus.completed,
                       metadata := { order_id := some "ord_5" } }],
        nextPid := 1 } (by decide)).2.1,
    (c5_order_paid_idempotent { id := "ord_5" } 9
      { payments := [{ checkoutId := "co_5", eventType := "order.created",
                       status := PStatus.completed,
                       metadata := { order_id := some "ord_5" } }],
        nextPid := 1 } (by decide)).2.2⟩

/-- C7: user creation is idempotent on email up to letter case.  Two
"checkout.created" events whose resolved identifiers normalize to the
same email (schema setters lowercase and trim on both writes and query
values) yield exactly one User: the first creates it, the second finds
it again, does not throw, creates no second User, and appends its new
payment id to the owned list of the User the first event created. -/
theorem c7_user_creation_case_idempotent (d1 d2 : EvData) (s0 : St) (e1 e2 : String)
    (h1 : jsOrS d1.externalCustomerId d1.customerEmail = some e1) (h2 : e1 ≠ "")
    (h3 : jsOrS d2.externalCustomerId d2.customerEmail = some e2) (h4 : e2 ≠ "")
    (h5 : normEmail e1 = normEmail e2)
    (h6 : findUserByEmail s0 (some e1) = none) :
    (handleCheckoutCreated d1 s0).users.length = s0.users.length + 1 ∧
    (handleCheckoutCreated d2 (handleCheckoutCreated d1 s0)).users.length =
      (handleCheckoutCreated d1 s0).users.length ∧
    (∀ env now,
      (processVerified "checkout.created" d2 env now (handleCheckoutCreated d1 s0)).2 =
        false) ∧
    ∃ u2, (handleCheckoutCreated d2 (handleCheckoutCreated d1 s0)).users.get?
        s0.users.length = some u2 ∧
      u2.email = normEmail e1 ∧
      u2.payments = [s0.nextPid, s0.nextPid + 1] := by
  have hs1 := handleCheckoutCreated_new d1 s0 e1 h1 h2 h6
  have hpeq : emailMatches (some e2) = emailMatches (some e1) := by
    funext u
    simp [emailMatches, ← h5]
  have hfind1 : findUserByEmail (handleCheckoutCreated d1 s0) (some e2) =
      some (s0.users.length,
        { email := normEmail e1, name := d1.customerName.map trimName,
          polarCustomerId := d1.customerId, subscriptionStatus := .free,
          subscriptionId := none, subscriptionEndsAt := none,
          payments := [s0.nextPid] }) := by
    unfold findUserByEmail
    rw [hs1, hpeq]
    exact findFirst?_append_singleton h6 (by simp [emailMatches])
  obtain ⟨hl2, hpay2, u2, hget, hemail, hpays⟩ :=
    handleCheckoutCreated_existing d2 (handleCheckoutCreated d1 s0) e2 s0.users.length
      { email := normEmail e1, name := d1.customerName.map trimName,
        polarCustomerId := d1.customerId, subscriptionStatus := .free,
        subscriptionId := none, subscriptionEndsAt := none,
        payments := [s0.nextPid] } h3 hfind1
  refine ⟨by rw [hs1]; simp, hl2, fun env now => rfl, u2, hget, by simpa using hemail, ?_⟩
  rw [hs1] at hpays
  simpa using hpays

theorem c7_user_creation_case_idempotent_witness :
    (jsOrS (none : Option String) (some "A@X.com") = some "A@X.com") ∧
    ("A@X.com" ≠ "") ∧
    (jsOrS (none : Option String) (some "a@x.com") = some "a@x.com") ∧
    ("a@x.com" ≠ "") ∧
    (normEmail "A@X.com" = normEmail "a@x.com") ∧
    (findUserByEmail {} (some "A@X.com") = none) ∧
    ∃ u2, (handleCheckoutCreated { id := "co_2", customerEmail := some "a@x.com" }
        (handleCheckoutCreated
          { id := "co_1", customerEmail := some "A@X.com" } {})).users.get? 0 =
        some u2 ∧
      u2.email = normEmail "A@X.com" ∧
      u2.payments = [0, 1] :=
  ⟨by decide, by decide, by decide, by decide, by decide, by decide,
    (c7_user_creation_case_idempotent
      { id := "co_1", customerEmail := some "A@X.com" }
      { id := "co_2", customerEmail := some "a@x.com" } {} "A@X.com" "a@x.com"
      (by decide) (by decide) (by decide) (by decide) (by decide) (by decide)).2.2.2⟩

/-- C8: for a "customer.updated" event whose id matches the
polarCustomerId of a stored User, a non-empty event email different
from the stored one overwrites the email field, stored through the
schema setters as its normalized (lowercased, trimmed) form, which is
exactly the key every email lookup normalizes to; likewise a present,
different name overwrites the name field, stored through the trim
setter of the name path as the trimmed event name, and an absent name
leaves the field unchanged. -/
theorem c8_customer_updated_overwrites (d : EvData) (s : St) (j : Nat) (u : User) (e : String)
    (h1 : findUserByPolarId s d.id = some (j, u))
    (h2 : d.email = some e) (h3 : e ≠ "") (h4 : e ≠ u.email) :
    (handleCustomerUpdated d s).users.length = s.users.length ∧
    ∃ u2, (handleCustomerUpdated d s).users.get? j = some u2 ∧
      u2.email = normEmail e ∧
      (∀ n, d.nameField = some n → n ≠ "" → some n ≠ u.name →
        u2.name = some (trimName n)) ∧
      (d.nameField = none → u2.name = u.name) := by
  have hlt : j < s.users.length := findFirst?_lt h1
  have hte : truthyS d.email = true := by rw [h2]; simp [truthyS, h3]
  have hbe : (d.email.getD "" != u.email) = true := by
    rw [h2]; simpa [bne_iff_ne] using h4
  unfold handleCustomerUpdated
  rw [h1]
  dsimp only
  by_cases hn : (truthyS d.nameField && (d.nameField != u.name)) = true
  · rw [if_pos hn]
    have hcond : (truthyS d.email &&
        (d.email.getD "" != User.email { u with name := d.nameField.map trimName })) =
          true := by
      simp only [hte, Bool.true_and]
      exact hbe
    rw [if_pos hcond]
    refine ⟨by simp, _, get?_set_self hlt, by simp [h2], ?_, ?_⟩
    · intro n hn1 hn2 hn3
      simp [hn1]
    · intro hnone
      rw [hnone] at hn
      simp [truthyS] at hn
  · rw [if_neg hn]
    have hcond : (truthyS d.email && (d.email.getD "" != u.email)) = true := by
      simp only [hte, Bool.true_and]
      exact hbe
    rw [if_pos hcond]
    refine ⟨by simp, _, get?_set_self hlt, by simp [h2], ?_, ?_⟩
    · intro n hn1 hn2 hn3
      exact absurd (by rw [hn1]; simp [truthyS, hn2, bne_iff_ne]; exact hn3) hn
    · intro hnone
      rfl

theorem c8_customer_updated_overwrites_witness :
    (findUserByPolarId
        { users := [{ email := "old@x.com", polarCustomerId := some "cus_8" }] }
        "cus_8" =
      some (0, { email := "old@x.com", polarCustomerId := some "cus_8" })) ∧
    (some "New@X.com" = some "New@X.com") ∧
    ("New@X.com" ≠ "") ∧
    ("New@X.com" ≠ "old@x.com") ∧
    ∃ u2, (handleCustomerUpdated
        { id := "cus_8", email := some "New@X.com", nameField := some " Bob " }
        { users := [{ email := "old@x.com", polarCustomerId := some "cus_8" }] }).users.get?
        0 = some u2 ∧
      u2.email = normEmail "New@X.com" ∧
      u2.name = some "Bob" :=
  ⟨by decide, rfl, by decide, by decide, by
    obtain ⟨-, u2, hg, he, hname, -⟩ :=
      c8_customer_updated_overwrites
        { id := "cus_8", email := some "New@X.com", nameField := some " Bob " }
        { users := [{ email := "old@x.com", polarCustomerId := some "cus_8" }] } 0
        { email := "old@x.com", polarCustomerId := some "cus_8" } "New@X.com"
        (by decide) rfl (by decide) (by decide)
    refine ⟨u2, hg, he, ?_⟩
    rw [hname " Bob " rfl (by decide) (by decide)]
    decide⟩

/-- C10: a "checkout.created" event carrying a non-empty
externalCustomerId resolves the user key to that identifier for every
value of the customer email field, present or absent (precedence, not
fallback).  When no user is stored under that key, the created User
stores it (normalized by the email schema setters) in the email
field; when a user is already stored under that key, that existing
user is the one the payment is attached to and no new User is
created; and when the customer email is absent or empty the created
Payment stores the identifier verbatim in its customerEmail field. -/
theorem c10_external_customer_id_key (d : EvData) (s : St) (x : String)
    (h1 : d.externalCustomerId = some x) (h2 : x ≠ "") :
    (jsOrS d.externalCustomerId d.customerEmail = some x) ∧
    (findUserByEmail s (some x) = none →
      (handleCheckoutCreated d s).users.length = s.users.length + 1 ∧
      ((handleCheckoutCreated d s).users.get? s.users.length).map User.email =
        some (normEmail x)) ∧
    (∀ i u, findUserByEmail s (some x) = some (i, u) →
      (handleCheckoutCreated d s).users.length = s.users.length ∧
      ∃ u2, (handleCheckoutCreated d s).users.get? i = some u2 ∧
        u2.email = u.email ∧ u2.payments = u.payments ++ [s.nextPid]) ∧
    (truthyS d.customerEmail = false →
      ((handleCheckoutCreated d s).payments.get? s.payments.length).map
        Payment.customerEmail = some (some x)) := by
  have hid : jsOrS d.externalCustomerId d.customerEmail = some x := by
    rw [h1]
    simp [jsOrS, truthyS, h2]
  refine ⟨hid, ?_, ?_, ?_⟩
  · intro h4
    have hs := handleCheckoutCreated_new d s x hid h2 h4
    constructor
    · rw [hs]; simp
    · rw [hs]; simp
  · intro i u hf
    obtain ⟨hl, -, u2, hg, he, hp⟩ := handleCheckoutCreated_existing d s x i u hid hf
    exact ⟨hl, u2, hg, he, hp⟩
  · intro h3
    cases hfind : findUserByEmail s (some x) with
    | none =>
      have hs := handleCheckoutCreated_new d s x hid h2 hfind
      rw [hs]
      simp [checkoutPayment, jsOrS, h3]
    | some iu =>
      obtain ⟨i, u⟩ := iu
      obtain ⟨-, hpay, -⟩ := handleCheckoutCreated_existing d s x i u hid hfind
      rw [hpay]
      simp [checkoutPayment, jsOrS, h3]

theorem c10_external_customer_id_key_witness :
    (({ id := "co_10", externalCustomerId := some "User_42",
        customerEmail := some "other@x.com" } : EvData).externalCustomerId =
      some "User_42") ∧
    ("User_42" ≠ "") ∧
    (jsOrS (some "User_42") (some "other@x.com") = some "User_42") ∧
    (((handleCheckoutCreated
        { id := "co_10", externalCustomerId := some "User_42",
          customerEmail := some "other@x.com" } {}).users.get? 0).map User.email =
      some (normEmail "User_42")) ∧
    (∃ u2, (handleCheckoutCreated
        { id := "co_11", externalCustomerId := some "User_42" }
        { users := [{ email := "user_42" }] }).users.get? 0 = some u2 ∧
      u2.email = "user_42" ∧ u2.payments = [0]) ∧
    (((handleCheckoutCreated
        { id := "co_11", externalCustomerId := some "User_42" } {}).payments.get?
        0).map Payment.customerEmail = some (some "User_42")) :=
  ⟨by decide, by decide,
    (c10_external_customer_id_key
      { id := "co_10", externalCustomerId := some "User_42",
        customerEmail := some "other@x.com" } {} "User_42" rfl (by decide)).1,
    ((c10_external_customer_id_key
      { id := "co_10", externalCustomerId := some "User_42",
        customerEmail := some "other@x.com" } {} "User_42" rfl (by decide)).2.1
      (by decide)).2,
    by
      obtain ⟨-, u2, hg, he, hp⟩ :=
        (c10_external_customer_id_key
          { id := "co_11", externalCustomerId := some "User_42" }
          { users := [{ email := "user_42" }] } "User_42" rfl (by decide)).2.2.1 0
          { email := "user_42" } (by decide)
      exact ⟨u2, hg, by simpa using he, by simpa using hp⟩,
    (c10_external_customer_id_key
      { id := "co_11", externalCustomerId := some "User_42" } {} "User_42" rfl
      (by decide)).2.2.2 (by decide)⟩
